import Mathlib

/-!
Verification of the minecraft-healthcheck repository.

Shallow embedding of src/healthcheck.py: the RakNet unconnected-ping codec
(create_unconnected_ping_frame, build_ping_packet, the pong check inside
ping_bedrock) and the scheduling loop ping_minecraft_server_main, modelled
as a step function over an explicit loop state. Python exceptions are
modelled with an explicit error type; the network is modelled as an
oracle event per probe attempt (reply / timeout / connection refused).
Real-valued clock quantities are modelled as rationals.
-/

/-- Magic value defined in the RakNet protocol, bytes.fromhex of
00ffff00fefefefefdfdfdfd12345678 (healthcheck.py line 22). -/
def MAGIC : List Nat :=
  [0x00, 0xff, 0xff, 0x00, 0xfe, 0xfe, 0xfe, 0xfe,
   0xfd, 0xfd, 0xfd, 0xfd, 0x12, 0x34, 0x56, 0x78]

/-- Little-endian byte encoding of a natural number into n bytes, as
struct.pack_into with format <Q writes for n = 8. -/
def leBytes : Nat → Nat → List Nat
  | 0, _ => []
  | n + 1, v => v % 256 :: leBytes n (v / 256)

/-- Value of a little-endian byte list, base 256. -/
def leDecode : List Nat → Nat
  | [] => 0
  | b :: rest => b + 256 * leDecode rest

/-- Python int() applied to a rational: truncation toward zero. -/
def pyInt (q : ℚ) : ℤ := if 0 ≤ q then ⌊q⌋ else ⌈q⌉

/-- Embedding of create_unconnected_ping_frame (healthcheck.py lines 77-83).
The current wall-clock time in milliseconds, time.time() * 1000, is the
parameter nowMs; start_time is the value captured at loop start; the
random 8 bytes from secrets.token_bytes are the parameter nonce. The
bytearray(33) receives byte 0 = 0x01, bytes 1-8 the packed <Q value
int(time.time() * 1000 - start_time), bytes 9-24 MAGIC, bytes 25-32 the
nonce. struct.pack_into with format <Q raises struct.error when the value
is outside the unsigned 64-bit range, modelled as none. -/
def create_unconnected_ping_frame (nowMs : ℚ) (start_time : ℤ)
    (nonce : Fin 8 → Nat) : Option (List Nat) :=
  if 0 ≤ pyInt (nowMs - (start_time : ℚ)) ∧
      pyInt (nowMs - (start_time : ℚ)) < 2 ^ 64 then
    some (0x01 :: (leBytes 8 (pyInt (nowMs - (start_time : ℚ))).toNat ++
      (MAGIC ++ List.ofFn fun i => nonce i % 256)))
  else
    none

/-- Embedding of build_ping_packet (healthcheck.py lines 68-74), the unused
legacy builder: byte 0x01, then int(time.time()) as 8 bytes big-endian,
then MAGIC, then 8 random bytes. int.to_bytes raises OverflowError outside
the unsigned 64-bit range, modelled as none. -/
def build_ping_packet (nowSec : ℤ) (nonce : Fin 8 → Nat) :
    Option (List Nat) :=
  if 0 ≤ nowSec ∧ nowSec < 2 ^ 64 then
    some (0x01 :: ((leBytes 8 nowSec.toNat).reverse ++
      (MAGIC ++ List.ofFn fun i => nonce i % 256)))
  else
    none

/-- Python exceptions that can arise on the probe path. -/
inductive PyError
  | timeoutError
  | connectionRefusedError
  | indexError
deriving DecidableEq, Repr

/-- Embedding of the pong-response check inside ping_bedrock
(healthcheck.py lines 94-97): return pong_packet[0] == 0x1C. Indexing an
empty bytes object raises IndexError, modelled as an error result. -/
def is_live_response (pong : List Nat) : Except PyError Bool :=
  match pong with
  | [] => Except.error PyError.indexError
  | b :: _ => Except.ok (decide (b = 0x1C))

/-- What the network does during one probe attempt: a datagram arrives
within the timeout, nothing arrives (sock.recvfrom raises TimeoutError),
or the transport reports connection refused (ConnectionRefusedError). -/
inductive NetEvent
  | reply (pong : List Nat)
  | timeout
  | refused
deriving DecidableEq, Repr

/-- Embedding of ping_bedrock (healthcheck.py lines 86-99) given the
network event of the attempt: on a reply, the pong check runs; on a
timeout, recvfrom raises TimeoutError; on refusal, ConnectionRefusedError
is raised. All exits release the socket, so no state is carried. -/
def ping_bedrock (ev : NetEvent) : Except PyError Bool :=
  match ev with
  | NetEvent.reply pong => is_live_response pong
  | NetEvent.timeout => Except.error PyError.timeoutError
  | NetEvent.refused => Except.error PyError.connectionRefusedError

-- Auxiliary lemmas about the byte encodings and the frame layout.

theorem leBytes_length (n v : Nat) : (leBytes n v).length = n := by
  induction n generalizing v with
  | zero => rfl
  | succ n ih => simp [leBytes, ih]

theorem leDecode_leBytes (n v : Nat) (h : v < 256 ^ n) :
    leDecode (leBytes n v) = v := by
  induction n generalizing v with
  | zero =>
    simp only [pow_zero, Nat.lt_one_iff] at h
    simp [leBytes, leDecode, h]
  | succ n ih =>
    have hdiv : v / 256 < 256 ^ n := by
      rw [Nat.div_lt_iff_lt_mul (by norm_num)]
      calc v < 256 ^ (n + 1) := h
        _ = 256 ^ n * 256 := by ring
    simp only [leBytes, leDecode, ih (v / 256) hdiv]
    omega

theorem frame_length (A C : List Nat) (hA : A.length = 8)
    (hC : C.length = 8) :
    ((0x01 :: (A ++ (MAGIC ++ C))) : List Nat).length = 33 := by
  have hM : MAGIC.length = 16 := rfl
  simp only [List.length_cons, List.length_append, hA, hM, hC]

theorem frame_magic_slice (A B C : List Nat) (hA : A.length = 8)
    (hB : B.length = 16) :
    (((0x01 :: (A ++ (B ++ C))) : List Nat).drop 9).take 16 = B := by
  have h1 : ((0x01 :: (A ++ (B ++ C))) : List Nat).drop 9 =
      (A ++ (B ++ C)).drop 8 := rfl
  rw [h1, ← hA, List.drop_left, ← hB, List.take_left]

theorem frame_timestamp_slice (A X : List Nat) (hA : A.length = 8) :
    (((0x01 :: (A ++ X)) : List Nat).drop 1).take 8 = A := by
  have h1 : ((0x01 :: (A ++ X)) : List Nat).drop 1 = A ++ X := rfl
  rw [h1, ← hA, List.take_left]

/-- Packet produced by create_unconnected_ping_frame at elapsed time 0 with
the all-zero nonce, used to witness the layout theorems concretely. The
same bytes are produced by build_ping_packet at time 0 with that nonce. -/
def pkt0 : List Nat :=
  [0x01, 0, 0, 0, 0, 0, 0, 0, 0,
   0x00, 0xff, 0xff, 0x00, 0xfe, 0xfe, 0xfe, 0xfe,
   0xfd, 0xfd, 0xfd, 0xfd, 0x12, 0x34, 0x56, 0x78,
   0, 0, 0, 0, 0, 0, 0, 0]

theorem create_frame_at_zero :
    create_unconnected_ping_frame 0 0 (fun _ => 0) = some pkt0 := by
  have h0 : pyInt ((0 : ℚ) - ((0 : ℤ) : ℚ)) = 0 := by
    norm_num [pyInt]
  unfold create_unconnected_ping_frame
  rw [h0]
  rw [if_pos ⟨le_refl 0, by positivity⟩]
  rfl

theorem build_packet_at_zero :
    build_ping_packet 0 (fun _ => 0) = some pkt0 := by
  unfold build_ping_packet
  rw [if_pos ⟨le_refl 0, by positivity⟩]
  rfl

/-- Claim C3: every packet returned by the probe-packet builder is exactly
33 bytes long, its byte 0 equals 0x01 and its bytes 9-24 equal the 16-byte
RakNet magic constant, regardless of the time values and the nonce drawn.
This holds both for create_unconnected_ping_frame, the builder ping_bedrock
actually sends, and for the unused legacy builder build_ping_packet. -/
theorem ping_frame_layout (nowMs : ℚ) (start_time nowSec : ℤ)
    (nonce nonceb : Fin 8 → Nat) (pkt pktb : List Nat)
    (h : create_unconnected_ping_frame nowMs start_time nonce = some pkt)
    (hb : build_ping_packet nowSec nonceb = some pktb) :
    (pkt.length = 33 ∧ pkt.take 1 = [0x01] ∧ (pkt.drop 9).take 16 = MAGIC) ∧
    (pktb.length = 33 ∧ pktb.take 1 = [0x01] ∧
      (pktb.drop 9).take 16 = MAGIC) := by
  constructor
  · unfold create_unconnected_ping_frame at h
    split at h
    · cases h
      refine ⟨?_, rfl, ?_⟩
      · exact frame_length _ _ (leBytes_length 8 _) (by simp)
      · exact frame_magic_slice _ _ _ (leBytes_length 8 _) rfl
    · cases h
  · unfold build_ping_packet at hb
    split at hb
    · cases hb
      refine ⟨?_, rfl, ?_⟩
      · exact frame_length _ _ (by simp [leBytes_length]) (by simp)
      · exact frame_magic_slice _ _ _ (by simp [leBytes_length]) rfl
    · cases hb

theorem ping_frame_layout_witness :
    (pkt0.length = 33 ∧ pkt0.take 1 = [0x01] ∧
      (pkt0.drop 9).take 16 = MAGIC) ∧
    (pkt0.length = 33 ∧ pkt0.take 1 = [0x01] ∧
      (pkt0.drop 9).take 16 = MAGIC) :=
  ping_frame_layout 0 0 0 (fun _ => 0) (fun _ => 0) pkt0 pkt0
    create_frame_at_zero build_packet_at_zero

/-- Claim C4: bytes 1-8 of every packet returned by
create_unconnected_ping_frame hold, in little-endian base-256 order, the
millisecond count elapsed since the start_time captured at process start,
that is the truncated value of time.time() * 1000 - start_time. -/
theorem ping_frame_timestamp (nowMs : ℚ) (start_time : ℤ)
    (nonce : Fin 8 → Nat) (pkt : List Nat)
    (h : create_unconnected_ping_frame nowMs start_time nonce = some pkt) :
    leDecode ((pkt.drop 1).take 8) =
      (pyInt (nowMs - (start_time : ℚ))).toNat := by
  unfold create_unconnected_ping_frame at h
  split at h
  · rename_i hrange
    cases h
    rw [frame_timestamp_slice _ _ (leBytes_length 8 _)]
    apply leDecode_leBytes
    have h64 : (256 : ℕ) ^ 8 = 18446744073709551616 := by norm_num
    have h64z : (2 : ℤ) ^ 64 = 18446744073709551616 := by norm_num
    rw [h64]
    rw [h64z] at hrange
    omega
  · cases h

theorem ping_frame_timestamp_witness :
    leDecode ((pkt0.drop 1).take 8) =
      (pyInt ((0 : ℚ) - ((0 : ℤ) : ℚ))).toNat :=
  ping_frame_timestamp 0 0 (fun _ => 0) pkt0 create_frame_at_zero

/-- Claim C2 counterexample: on the empty buffer the liveness-response
check does not return false (nor true); the indexing raises IndexError. -/
theorem is_live_response_empty_raises :
    is_live_response [] = Except.error PyError.indexError ∧
    is_live_response [] ≠ Except.ok false ∧
    is_live_response [] ≠ Except.ok true := by
  refine ⟨rfl, ?_, ?_⟩ <;> intro h <;> simp [is_live_response] at h

/-- Claim C2 as amended: for every non-empty buffer, of any length
including truncated one-byte buffers, the liveness-response check returns
true iff the first byte equals 0x1C and returns false otherwise, without
raising; on the empty buffer it raises IndexError instead of returning
false. -/
theorem is_live_response_spec :
    (∀ b rest, is_live_response (b :: rest) =
      Except.ok (decide (b = 0x1C))) ∧
    is_live_response [] = Except.error PyError.indexError :=
  ⟨fun _ _ => rfl, rfl⟩

/-- Embedding of HealthcheckResult (healthcheck.py lines 42-65): the
prometheus counter for attempts and the two gauges, all starting at 0. -/
structure HealthcheckResult where
  attempt_counter : Nat
  healthy_gauge : Nat
  unhealthy_gauge : Nat
deriving DecidableEq, Repr

/-- Embedding of HealthcheckResult.mark_attempt: self.attempt_counter.inc(). -/
def mark_attempt (r : HealthcheckResult) : HealthcheckResult :=
  { r with attempt_counter := r.attempt_counter + 1 }

/-- Embedding of HealthcheckResult.mark_healthy: healthy_gauge.set(1),
unhealthy_gauge.set(0). -/
def mark_healthy (r : HealthcheckResult) : HealthcheckResult :=
  { r with healthy_gauge := 1, unhealthy_gauge := 0 }

/-- Embedding of HealthcheckResult.mark_unhealthy: healthy_gauge.set(0),
unhealthy_gauge.set(1). -/
def mark_unhealthy (r : HealthcheckResult) : HealthcheckResult :=
  { r with healthy_gauge := 0, unhealthy_gauge := 1 }

/-- State of the while loop in ping_minecraft_server_main: the metrics
object, the countdown variable time_since_last_ping, and last_time, the
monotonic-clock reading of the previous wakeup. -/
structure LoopState where
  result : HealthcheckResult
  time_since_last_ping : ℚ
  last_time : ℚ
deriving DecidableEq, Repr

/-- Outcome of one wakeup of the while loop in ping_minecraft_server_main:
the loop exits because shutdown.is_set() was observed, or it runs the body
and continues (probed records whether the countdown fired and a probe ran),
or an exception the body does not catch propagates and the loop, hence the
healthcheck thread, terminates abnormally. -/
inductive StepResult
  | exited (s : LoopState)
  | continued (s : LoopState) (probed : Bool)
  | crashed (s : LoopState) (e : PyError)
deriving DecidableEq, Repr

/-- Embedding of one wakeup of the while loop in ping_minecraft_server_main
(healthcheck.py lines 107-130). The monotonic-clock reading time.monotonic()
of this wakeup is the parameter now; the network event of the probe attempt
(used only when the countdown fires) is ev. The body decrements
time_since_last_ping by now - last_time; when it is then at or below zero
it is reset to 1.0, mark_attempt runs, ping_bedrock runs, and only
ConnectionRefusedError is caught (healthy = False); a caught-or-ok outcome
marks the gauges, any other exception escapes the loop. -/
def loopStep (shutdown_set : Bool) (now : ℚ) (ev : NetEvent)
    (s : LoopState) : StepResult :=
  if shutdown_set then
    StepResult.exited s
  else if s.time_since_last_ping - (now - s.last_time) ≤ 0 then
    match ping_bedrock ev with
    | Except.ok true =>
        StepResult.continued
          ⟨mark_healthy (mark_attempt s.result), 1, now⟩ true
    | Except.ok false =>
        StepResult.continued
          ⟨mark_unhealthy (mark_attempt s.result), 1, now⟩ true
    | Except.error PyError.connectionRefusedError =>
        StepResult.continued
          ⟨mark_unhealthy (mark_attempt s.result), 1, now⟩ true
    | Except.error e =>
        StepResult.crashed ⟨mark_attempt s.result, 1, now⟩ e
  else
    StepResult.continued
      ⟨s.result, s.time_since_last_ping - (now - s.last_time), now⟩ false

/-- True when the wakeup reached the probe: mark_attempt ran and
ping_bedrock was called (whether or not it raised). -/
def probeStarted : StepResult → Bool
  | StepResult.continued _ probed => probed
  | StepResult.crashed _ _ => true
  | StepResult.exited _ => false

/-- Value of time_since_last_ping after a wakeup that did not exit. -/
def countdownAfter : StepResult → Option ℚ
  | StepResult.continued s _ => some s.time_since_last_ping
  | StepResult.crashed s _ => some s.time_since_last_ping
  | StepResult.exited _ => none

/-- Loop state set up by ping_minecraft_server_main before the loop
(healthcheck.py lines 103-106): fresh metrics at 0,
time_since_last_ping = 0.0, last_time = time.monotonic() = t0. -/
def loopInit (t0 : ℚ) : LoopState :=
  ⟨⟨0, 0, 0⟩, 0, t0⟩

/-- Inputs the environment supplies to one wakeup: the shutdown flag as
observed at the top of the loop, the monotonic-clock reading, and the
network event of the probe attempt. -/
structure WakeupInput where
  shutdown_set : Bool
  now : ℚ
  ev : NetEvent
deriving Repr

/-- Run of the while loop over a finite list of wakeup inputs, collecting
the outcome of every wakeup that executed; the run stops early when the
loop exits or an uncaught exception kills the thread. -/
def runLoop (inputs : List WakeupInput) (s : LoopState) : List StepResult :=
  match inputs with
  | [] => []
  | i :: rest =>
    match loopStep i.shutdown_set i.now i.ev s with
    | StepResult.continued s2 b => StepResult.continued s2 b :: runLoop rest s2
    | r => [r]

/-- Claim C1 is refuted by the code (the claim matches the stated intent):
on a probe attempt with no reply within the deadline, sock.recvfrom raises
TimeoutError, which the loop body does not catch (only
ConnectionRefusedError is), so instead of setting the unhealthy gauge to 1
and continuing to the next scheduled probe, the wakeup ends with the
exception escaping the loop: the attempt counter has been incremented,
both gauges still read 0, and the healthcheck thread terminates,
performing no further probes. -/
theorem timeout_escapes_loop :
    loopStep false 0 NetEvent.timeout (loopInit 0) =
      StepResult.crashed ⟨⟨1, 0, 0⟩, 1, 0⟩ PyError.timeoutError ∧
    runLoop (⟨false, 0, NetEvent.timeout⟩ :: []) (loopInit 0) =
      [StepResult.crashed ⟨⟨1, 0, 0⟩, 1, 0⟩ PyError.timeoutError] := by
  have h1 : loopStep false 0 NetEvent.timeout (loopInit 0) =
      StepResult.crashed ⟨⟨1, 0, 0⟩, 1, 0⟩ PyError.timeoutError := by
    unfold loopStep
    rw [if_neg (by simp), if_pos (by norm_num [loopInit])]
    rfl
  exact ⟨h1, by simp [runLoop, h1]⟩

/-- Claim C5: when the transport reports connection refused on a wakeup
whose countdown has expired, the ConnectionRefusedError is caught, the
probe is classified as unhealthy, and the loop continues; the exception
does not propagate out of the probe step. -/
theorem refused_is_unhealthy (now : ℚ) (s : LoopState)
    (hdue : s.time_since_last_ping - (now - s.last_time) ≤ 0) :
    loopStep false now NetEvent.refused s =
      StepResult.continued
        ⟨mark_unhealthy (mark_attempt s.result), 1, now⟩ true := by
  unfold loopStep
  rw [if_neg (by simp), if_pos hdue]
  rfl

theorem refused_is_unhealthy_witness :
    loopStep false 0 NetEvent.refused (loopInit 0) =
      StepResult.continued
        ⟨mark_unhealthy (mark_attempt (loopInit 0).result), 1, 0⟩ true :=
  refused_is_unhealthy 0 (loopInit 0) (by norm_num [loopInit])

/-- Claim C6: after every completed probe exactly one of the two gauges
reads 1 and the other reads 0, never both 1 and never both 0; and the
mark-healthy and mark-unhealthy operations each write both gauges as a
pair, never only one of them. -/
theorem gauges_mutually_exclusive (sh : Bool) (now : ℚ) (ev : NetEvent)
    (s s2 : LoopState) (r : HealthcheckResult)
    (h : loopStep sh now ev s = StepResult.continued s2 true) :
    ((s2.result.healthy_gauge = 1 ∧ s2.result.unhealthy_gauge = 0) ∨
      (s2.result.healthy_gauge = 0 ∧ s2.result.unhealthy_gauge = 1)) ∧
    ((mark_healthy r).healthy_gauge = 1 ∧
      (mark_healthy r).unhealthy_gauge = 0 ∧
      (mark_unhealthy r).healthy_gauge = 0 ∧
      (mark_unhealthy r).unhealthy_gauge = 1) := by
  refine ⟨?_, rfl, rfl, rfl, rfl⟩
  unfold loopStep at h
  split at h
  · cases h
  · split at h
    · split at h
      · cases h; exact Or.inl ⟨rfl, rfl⟩
      · cases h; exact Or.inr ⟨rfl, rfl⟩
      · cases h; exact Or.inr ⟨rfl, rfl⟩
      · cases h
    · cases h

theorem gauges_mutually_exclusive_witness :
    (((⟨⟨1, 1, 0⟩, 1, 0⟩ : LoopState).result.healthy_gauge = 1 ∧
       (⟨⟨1, 1, 0⟩, 1, 0⟩ : LoopState).result.unhealthy_gauge = 0) ∨
      ((⟨⟨1, 1, 0⟩, 1, 0⟩ : LoopState).result.healthy_gauge = 0 ∧
       (⟨⟨1, 1, 0⟩, 1, 0⟩ : LoopState).result.unhealthy_gauge = 1)) ∧
    ((mark_healthy ⟨0, 0, 0⟩).healthy_gauge = 1 ∧
      (mark_healthy ⟨0, 0, 0⟩).unhealthy_gauge = 0 ∧
      (mark_unhealthy ⟨0, 0, 0⟩).healthy_gauge = 0 ∧
      (mark_unhealthy ⟨0, 0, 0⟩).unhealthy_gauge = 1) :=
  gauges_mutually_exclusive false 0 (NetEvent.reply [0x1C]) (loopInit 0)
    ⟨⟨1, 1, 0⟩, 1, 0⟩ ⟨0, 0, 0⟩ (by
      unfold loopStep
      rw [if_neg (by simp), if_pos (by norm_num [loopInit])]
      rfl)

/-- Claim C7: on every wakeup that runs the loop body, the countdown is
decremented by the monotonic-clock time elapsed since the previous wakeup;
a probe is performed exactly when the decremented countdown is at or below
zero, and at that point the countdown is reset to the 1-second period,
while otherwise the body only stores the decremented countdown and the new
clock reading and performs no probe. -/
theorem countdown_schedule (now : ℚ) (ev : NetEvent) (s : LoopState) :
    (s.time_since_last_ping - (now - s.last_time) ≤ 0 →
      probeStarted (loopStep false now ev s) = true ∧
      countdownAfter (loopStep false now ev s) = some 1) ∧
    (0 < s.time_since_last_ping - (now - s.last_time) →
      loopStep false now ev s =
        StepResult.continued
          ⟨s.result, s.time_since_last_ping - (now - s.last_time), now⟩
          false) := by
  constructor
  · intro hdue
    unfold loopStep
    rw [if_neg (by simp), if_pos hdue]
    cases hev : ping_bedrock ev with
    | ok b => cases b <;> exact ⟨rfl, rfl⟩
    | error e => cases e <;> exact ⟨rfl, rfl⟩
  · intro hlate
    unfold loopStep
    rw [if_neg (by simp), if_neg (not_le.mpr hlate)]

theorem countdown_schedule_witness :
    ((probeStarted (loopStep false 0 NetEvent.timeout (loopInit 0)) = true ∧
      countdownAfter (loopStep false 0 NetEvent.timeout (loopInit 0)) =
        some 1) ∧
     loopStep false 0 NetEvent.timeout ⟨⟨0, 0, 0⟩, 2, 0⟩ =
       StepResult.continued ⟨⟨0, 0, 0⟩, 2, 0⟩ false) := by
  constructor
  · exact (countdown_schedule 0 NetEvent.timeout (loopInit 0)).1
      (by norm_num [loopInit])
  · have h := (countdown_schedule 0 NetEvent.timeout ⟨⟨0, 0, 0⟩, 2, 0⟩).2
      (by norm_num)
    rw [h]
    norm_num

/-- Claim C8: once the shutdown flag is set, the wakeup that next observes
it exits the loop at the top, before the countdown is touched and before
any probe can begin, and the run performs no further wakeups: no probe is
ever started after shutdown is observed. -/
theorem shutdown_stops_probing (now : ℚ) (ev : NetEvent) (s : LoopState)
    (rest : List WakeupInput) :
    runLoop (⟨true, now, ev⟩ :: rest) s = [StepResult.exited s] ∧
    probeStarted (loopStep true now ev s) = false := by
  constructor
  · simp [runLoop, loopStep]
  · rfl

/-- Claim C9: in every wakeup that performs a probe, mark_attempt runs
before ping_bedrock, so when the probe raises an exception the body does
not catch, the attempt counter has still increased by exactly one while
both gauges keep their previous values. -/
theorem attempt_counted_before_probe (now : ℚ) (ev : NetEvent)
    (s s2 : LoopState) (e : PyError)
    (h : loopStep false now ev s = StepResult.crashed s2 e) :
    s2.result.attempt_counter = s.result.attempt_counter + 1 ∧
    s2.result.healthy_gauge = s.result.healthy_gauge ∧
    s2.result.unhealthy_gauge = s.result.unhealthy_gauge := by
  unfold loopStep at h
  split at h
  · cases h
  · split at h
    · split at h
      · cases h
      · cases h
      · cases h
      · cases h; exact ⟨rfl, rfl, rfl⟩
    · cases h

theorem attempt_counted_before_probe_witness :
    ((⟨⟨1, 0, 0⟩, 1, 0⟩ : LoopState)).result.attempt_counter =
        (loopInit 0).result.attempt_counter + 1 ∧
    ((⟨⟨1, 0, 0⟩, 1, 0⟩ : LoopState)).result.healthy_gauge =
        (loopInit 0).result.healthy_gauge ∧
    ((⟨⟨1, 0, 0⟩, 1, 0⟩ : LoopState)).result.unhealthy_gauge =
        (loopInit 0).result.unhealthy_gauge :=
  attempt_counted_before_probe 0 NetEvent.timeout (loopInit 0)
    ⟨⟨1, 0, 0⟩, 1, 0⟩ PyError.timeoutError (by
      unfold loopStep
      rw [if_neg (by simp), if_pos (by norm_num [loopInit])]
      rfl)

/-- Claim C10: time_since_last_ping starts at 0.0, so the first wakeup
after startup already performs a probe (the monotonic clock never runs
backwards, so the reading now is at least the reading t0 taken before the
loop); no full 1-second period has to elapse first. -/
theorem first_wakeup_probes (t0 now : ℚ) (ev : NetEvent) (h : t0 ≤ now) :
    (loopInit t0).time_since_last_ping = 0 ∧
    probeStarted (loopStep false now ev (loopInit t0)) = true := by
  refine ⟨rfl, ?_⟩
  have hdue : (loopInit t0).time_since_last_ping -
      (now - (loopInit t0).last_time) ≤ 0 := by
    simp only [loopInit]
    linarith
  unfold loopStep
  rw [if_neg (by simp), if_pos hdue]
  cases hev : ping_bedrock ev with
  | ok b => cases b <;> rfl
  | error e => cases e <;> rfl

theorem first_wakeup_probes_witness :
    (loopInit 0).time_since_last_ping = 0 ∧
    probeStarted (loopStep false 0 NetEvent.timeout (loopInit 0)) = true :=
  first_wakeup_probes 0 0 NetEvent.timeout (le_refl 0)
